import Mathlib

/-!
# Verification of the PageBolt MCP server (src/index.mjs)

A shallow embedding of the PageBolt MCP server's tool handlers.  The server
is a thin adapter: each tool handler validates its parameters, issues at most
one HTTP request to the PageBolt backend, and reshapes the JSON response into
an MCP result.  We model:

* the environment (`PAGEBOLT_API_KEY`, `PAGEBOLT_BASE_URL`) as an `Env`;
* an outbound `fetch` as a `Request` value recorded in a trace;
* the backend's answer as an oracle `Response` (plus, per tool, a typed
  record for the parsed JSON success body);
* a `writeFileSync` as a `FileWrite` value recorded in a trace;
* the Node path functions `resolve`/`relative` (external to the repository)
  as an oracle `PathCtx` carrying their results for the invocation;
* a thrown JS error as `Except.error` carrying the error message.

JavaScript truthiness on optional strings (`undefined` and `""` are falsy)
is modelled by `truthy`; `a || b` on strings by `jsOr`.
-/

/-- JS truthiness of an optional string: `undefined` and `""` are falsy. -/
def truthy : Option String → Bool
  | none => false
  | some s => s ≠ ""

/-- JS `a || b` for an optional string `a` with default `b`. -/
def jsOr (v : Option String) (d : String) : String :=
  match v with
  | some s => if s = "" then d else s
  | none => d

/-- `containsStr s sub` holds when `sub` occurs as a contiguous substring of `s`. -/
def containsStr (s sub : String) : Prop :=
  sub.data <:+: s.data

instance (s sub : String) : Decidable (containsStr s sub) :=
  inferInstanceAs (Decidable (sub.data <:+: s.data))

theorem listInfix_here {α : Type} (t rest : List α) : t <:+: t ++ rest :=
  ⟨[], rest, by simp⟩

theorem listInfix_skip {α : Type} (l : List α) {t m : List α} (h : t <:+: m) :
    t <:+: l ++ m := by
  obtain ⟨s, u, hs⟩ := h
  exact ⟨l ++ s, u, by simp [← hs, List.append_assoc]⟩

theorem listInfix_grow {α : Type} (l : List α) {t m : List α} (h : t <:+: m) :
    t <:+: m ++ l := by
  obtain ⟨s, u, hs⟩ := h
  exact ⟨s, u ++ l, by simp [← hs, List.append_assoc]⟩

/-- A string contains itself with any suffix appended. -/
theorem containsStr_append_right (s t : String) : containsStr (s ++ t) s := by
  show s.data <:+: (s ++ t).data
  rw [String.data_append]
  exact listInfix_here _ _

/-- A string contains itself with any prefix appended. -/
theorem containsStr_append_left (s t : String) : containsStr (t ++ s) s := by
  show s.data <:+: (t ++ s).data
  rw [String.data_append]
  exact listInfix_skip _ (List.infix_rfl)

/-- Splitting a string as `pre ++ mid ++ suf` shows it contains `mid`. -/
theorem containsStr_of_split {s : String} (pre mid suf : String)
    (h : s = pre ++ mid ++ suf) : containsStr s mid := by
  subst h
  show mid.data <:+: (pre ++ mid ++ suf).data
  rw [String.data_append, String.data_append, List.append_assoc]
  exact listInfix_skip _ (listInfix_here _ _)

/-- Containment is preserved by growing the string on either side. -/
theorem containsStr_mono_left {s t : String} (pre : String) (h : containsStr s t) :
    containsStr (pre ++ s) t := by
  show t.data <:+: (pre ++ s).data
  rw [String.data_append]
  exact listInfix_skip _ h

theorem containsStr_mono_right {s t : String} (suf : String) (h : containsStr s t) :
    containsStr (s ++ suf) t := by
  show t.data <:+: (s ++ suf).data
  rw [String.data_append]
  exact listInfix_grow _ h

-- ─── Environment and HTTP model ─────────────────────────────────

/-- Process configuration: `API_KEY = process.env.PAGEBOLT_API_KEY` (absent or a
string) and `BASE_URL` (already defaulted and stripped of a trailing slash). -/
structure Env where
  apiKey : Option String
  baseUrl : String
deriving DecidableEq

/-- One outbound `fetch` call as issued by `callApi`. -/
structure Request where
  url : String
  method : String
  headers : List (String × String)
  hasBody : Bool
deriving DecidableEq

/-- The JSON body of a non-2xx backend response, as far as the error path reads
it: `errJson.error || JSON.stringify(errJson)`.  `errorField` is the `error`
field when present; `stringified` is `JSON.stringify` of the whole body. -/
structure ErrBody where
  errorField : Option String
  stringified : String
deriving DecidableEq

/-- The backend's raw HTTP response, an oracle for one invocation.  `errBody`
is the result of `res.json()` on the error path: `none` models a body that is
not parseable as JSON (the `catch` branch). -/
structure Response where
  ok : Bool
  status : Nat
  statusText : String
  errBody : Option ErrBody
deriving DecidableEq

deriving instance DecidableEq for Except

/-- The message `requireApiKey` throws when `PAGEBOLT_API_KEY` is missing. -/
def apiKeyErrorMsg : String :=
  "PAGEBOLT_API_KEY environment variable is required. " ++
  "Get your free API key at https://pagebolt.dev"

/-- Headers attached by `callApi`: always `x-api-key` and `user-agent`;
`Content-Type: application/json` exactly when a body is sent. -/
def buildHeaders (key : String) (hasBody : Bool) : List (String × String) :=
  [("x-api-key", key), ("user-agent", "pagebolt-mcp/1.6.2")] ++
  (if hasBody then [("Content-Type", "application/json")] else [])

/-- Error-message extraction of `callApi`'s non-ok branch:
`errJson.error || JSON.stringify(errJson)` when the body parses as JSON,
else `HTTP <status> <statusText>`. -/
def extractErrorMsg (res : Response) : String :=
  match res.errBody with
  | some b =>
    match b.errorField with
    | some s => if s = "" then b.stringified else s
    | none => b.stringified
  | none => "HTTP " ++ toString res.status ++ " " ++ res.statusText

/-- `callApi(endpoint, options)`: require the API key (throw before fetching
when it is absent or empty), issue one `fetch`, and on a non-ok response throw
`PageBolt API error: <extracted message>`.  Returns the list of requests
actually issued together with the thrown-or-returned outcome. -/
def callApi (env : Env) (endpoint : String) (method : Option String)
    (hasBody : Bool) (res : Response) : List Request × Except String Response :=
  match env.apiKey with
  | none => ([], .error apiKeyErrorMsg)
  | some key =>
    if key = "" then ([], .error apiKeyErrorMsg)
    else
      let req : Request :=
        { url := env.baseUrl ++ endpoint
          method := jsOr method "GET"
          headers := buildHeaders key hasBody
          hasBody := hasBody }
      if res.ok then ([req], .ok res)
      else ([req], .error ("PageBolt API error: " ++ extractErrorMsg res))

example :
    (callApi ⟨some "k", "https://pagebolt.dev"⟩ "/api/v1/usage" none false
      ⟨false, 404, "Not Found", none⟩).2 =
    .error "PageBolt API error: HTTP 404 Not Found" := by decide

example :
    (callApi ⟨some "k", "https://pagebolt.dev"⟩ "/api/v1/usage" none false
      ⟨false, 400, "Bad Request", some ⟨some "limit exceeded", "..."⟩⟩).2 =
    .error "PageBolt API error: limit exceeded" := by decide

-- ─── MCP result model ───────────────────────────────────────────

/-- One item of a tool result's `content` array. -/
inductive ContentItem where
  | text (s : String)
  | image (dataB64 : String) (mimeType : String)
  | resource (uri : String) (mimeType : String) (blob : String)
deriving DecidableEq

/-- A tool result: `content` plus the `isError` flag (absent in the source on
success results, i.e. `false`). -/
structure ToolResult where
  content : List ContentItem
  isError : Bool
deriving DecidableEq

/-- One `writeFileSync(path, buffer)` call, with the buffer's base64 source. -/
structure FileWrite where
  path : String
  dataB64 : String
deriving DecidableEq

/-- The observable outcome of running one tool handler: the outbound requests
it issued, the file writes it performed, and its result — `.error` models a
JS exception propagating out of the handler (surfaced by the MCP SDK as an
error result), `.ok` a result object returned by the handler itself. -/
structure Outcome where
  requests : List Request
  writes : List FileWrite
  result : Except String ToolResult
deriving DecidableEq

/-- The text items of a handler outcome's result content. -/
def resultTexts (o : Outcome) : List String :=
  match o.result with
  | .ok r => r.content.filterMap (fun c =>
      match c with
      | .text t => some t
      | _ => none)
  | .error _ => []

/-- Whether the outcome reports a failure to the caller: either a thrown
error or a result flagged `isError`. -/
def failedOutcome (o : Outcome) : Bool :=
  match o.result with
  | .error _ => true
  | .ok r => r.isError

-- ─── Path safety (safePath) ─────────────────────────────────────

/-- Results of the Node path functions for one invocation: `resolved` is
`resolve(userPath || defaultName)` and `rel` is `relative(process.cwd(),
resolved)`.  The path functions themselves live outside the repository; their
results are an oracle. -/
structure PathCtx where
  resolved : String
  rel : String
deriving DecidableEq

/-- JS `String.prototype.startsWith`, on the character sequences. -/
def strStartsWith (s pre : String) : Bool :=
  pre.data.isPrefixOf s.data

/-- POSIX `isAbsolute`: the path starts with a slash. -/
def isAbsolutePath (p : String) : Bool :=
  strStartsWith p "/"

/-- `safePath`: reject when the path relative to the CWD is absolute or starts
with `..`, otherwise return the resolved path.  (The dynamic tail of the thrown
message — the user path and CWD — is elided.) -/
def safePath (ctx : PathCtx) : Except String String :=
  if isAbsolutePath ctx.rel || strStartsWith ctx.rel ".." then
    .error "saveTo path must be within the current working directory."
  else
    .ok ctx.resolved

/-- The `try { safePath; writeFileSync } catch {}` block shared by
`generate_pdf` and `record_video`: on any failure `savedPath` stays `null`
and no write is recorded; `diskOk` is the oracle for whether `writeFileSync`
itself succeeds. -/
def trySave (ctx : PathCtx) (diskOk : Bool) (dataB64 : String) :
    Option String × List FileWrite :=
  match safePath ctx with
  | .error _ => (none, [])
  | .ok outputPath =>
    if diskOk then (some outputPath, [⟨outputPath, dataB64⟩])
    else (none, [])

-- ─── MIME helpers ───────────────────────────────────────────────

/-- `imageMimeType`: map an image format to its MIME type, default PNG. -/
def imageMimeType (format : String) : String :=
  if format = "png" then "image/png"
  else if format = "jpeg" then "image/jpeg"
  else if format = "jpg" then "image/jpeg"
  else if format = "webp" then "image/webp"
  else "image/png"

/-- The `videoMimeTypes[ext] || 'video/mp4'` lookup in `record_video`. -/
def videoMimeType (ext : String) : String :=
  if ext = "mp4" then "video/mp4"
  else if ext = "webm" then "video/webm"
  else if ext = "gif" then "image/gif"
  else "video/mp4"

-- ─── Tool: take_screenshot ──────────────────────────────────────

/-- The fields of the `take_screenshot` parameter bag that the handler itself
reads (`url`/`html`/`markdown` for validation, `format` for the MIME type and
text).  All remaining parameters are forwarded opaquely in the request body. -/
structure ScreenshotParams where
  url : Option String
  html : Option String
  markdown : Option String
  format : Option String
deriving DecidableEq

/-- The parsed JSON success body of `/api/v1/screenshot`; `metadata` is the
optional metadata object, carried in its `JSON.stringify(·, null, 2)` form. -/
structure ScreenshotData where
  data : String
  size_bytes : Nat
  duration_ms : Nat
  metadata : Option String
deriving DecidableEq

/-- Validation message of `take_screenshot`. -/
def screenshotMissingMsg : String :=
  "Error: One of \"url\", \"html\", or \"markdown\" is required."

/-- Success text of `take_screenshot`. -/
def screenshotSuccessText (format : String) (sizeBytes durationMs : Nat) : String :=
  "Screenshot captured successfully. Format: " ++ format ++ ", Size: " ++
  toString sizeBytes ++ " bytes" ++ ", Duration: " ++ toString durationMs ++ "ms"

/-- The `take_screenshot` handler.  No `try`/`catch`: a thrown `callApi` error
propagates (`.error`). -/
def take_screenshot (env : Env) (p : ScreenshotParams) (res : Response)
    (d : ScreenshotData) : Outcome :=
  if truthy p.url = false && truthy p.html = false && truthy p.markdown = false then
    { requests := [], writes := []
      result := .ok { content := [.text screenshotMissingMsg], isError := true } }
  else
    match callApi env "/api/v1/screenshot" (some "POST") true res with
    | (reqs, .error e) => { requests := reqs, writes := [], result := .error e }
    | (reqs, .ok _) =>
      let format := jsOr p.format "png"
      let base : List ContentItem :=
        [.image d.data (imageMimeType format),
         .text (screenshotSuccessText format d.size_bytes d.duration_ms)]
      let content :=
        match d.metadata with
        | some m => base ++ [.text ("Metadata:\n" ++ m)]
        | none => base
      { requests := reqs, writes := []
        result := .ok { content := content, isError := false } }

-- ─── Tool: generate_pdf ─────────────────────────────────────────

/-- The fields of the `generate_pdf` parameter bag that the handler itself
reads; all remaining parameters are forwarded opaquely in the request body
(with `saveTo` destructured out). -/
structure PdfParams where
  url : Option String
  html : Option String
  saveTo : Option String
deriving DecidableEq

/-- The parsed JSON success body of `/api/v1/pdf`. -/
structure PdfData where
  data : String
  size_bytes : Nat
  duration_ms : Nat
deriving DecidableEq

/-- Validation message of `generate_pdf`. -/
def pdfMissingMsg : String :=
  "Error: Either \"url\" or \"html\" is required."

/-- The file-note line of `generate_pdf`'s success text. -/
def pdfFileNote (savedPath : Option String) : String :=
  match savedPath with
  | some p => "  File: " ++ p
  | none => "  File: (not saved to disk — use the embedded resource data below)"

/-- Success text of `generate_pdf`. -/
def pdfSuccessText (savedPath : Option String) (sizeBytes durationMs : Nat) : String :=
  "PDF generated successfully.\n" ++ pdfFileNote savedPath ++ "\n  Size: " ++
  toString sizeBytes ++ " bytes" ++ "\n  Duration: " ++ toString durationMs ++ "ms"

/-- The `generate_pdf` handler.  The disk write is best-effort: its failure
(including a `safePath` rejection) is swallowed and the result stays a
success carrying the full base64 payload as an embedded resource. -/
def generate_pdf (env : Env) (p : PdfParams) (ctx : PathCtx) (diskOk : Bool)
    (res : Response) (d : PdfData) : Outcome :=
  if truthy p.url = false && truthy p.html = false then
    { requests := [], writes := []
      result := .ok { content := [.text pdfMissingMsg], isError := true } }
  else
    match callApi env "/api/v1/pdf" (some "POST") true res with
    | (reqs, .error e) => { requests := reqs, writes := [], result := .error e }
    | (reqs, .ok _) =>
      let saved := trySave ctx diskOk d.data
      let content : List ContentItem :=
        [.resource "pagebolt://pdf/output.pdf" "application/pdf" d.data,
         .text (pdfSuccessText saved.1 d.size_bytes d.duration_ms)]
      { requests := reqs, writes := saved.2
        result := .ok { content := content, isError := false } }

-- ─── Tool: create_og_image ──────────────────────────────────────

/-- The fields of the `create_og_image` parameter bag the handler reads
(only `format`); all parameters are optional and forwarded in the body. -/
structure OgParams where
  format : Option String
deriving DecidableEq

/-- The parsed JSON success body of `/api/v1/og-image`. -/
structure OgData where
  data : String
  size_bytes : Nat
  duration_ms : Nat
deriving DecidableEq

/-- Success text of `create_og_image`. -/
def ogSuccessText (format : String) (sizeBytes durationMs : Nat) : String :=
  "OG image created successfully. Format: " ++ format ++ ", Size: " ++
  toString sizeBytes ++ " bytes" ++ ", Duration: " ++ toString durationMs ++ "ms"

/-- The `create_og_image` handler: no local validation, no `try`/`catch`. -/
def create_og_image (env : Env) (p : OgParams) (res : Response) (d : OgData) :
    Outcome :=
  match callApi env "/api/v1/og-image" (some "POST") true res with
  | (reqs, .error e) => { requests := reqs, writes := [], result := .error e }
  | (reqs, .ok _) =>
    let format := jsOr p.format "png"
    let content : List ContentItem :=
      [.image d.data (imageMimeType format),
       .text (ogSuccessText format d.size_bytes d.duration_ms)]
    { requests := reqs, writes := []
      result := .ok { content := content, isError := false } }

-- ─── Tool: run_sequence ─────────────────────────────────────────

/-- One automation step as far as the handler reads it (only the array's
length matters locally; the step contents are forwarded in the body). -/
structure SeqStep where
  action : String
deriving DecidableEq

/-- The fields of the `run_sequence` parameter bag the handler reads. -/
structure SeqParams where
  steps : Option (List SeqStep)
deriving DecidableEq

/-- One entry of the sequence response's `outputs` array. -/
structure SeqOutput where
  type : String
  name : String
  data : String
  content_type : String
  format : String
  size_bytes : Nat
  step_index : Nat
deriving DecidableEq

/-- One entry of the sequence response's `step_results` array. -/
structure StepResult where
  step_index : Nat
  action : String
  status : String
  error : String
deriving DecidableEq

/-- The parsed JSON success body of `/api/v1/sequence`. -/
structure SequenceData where
  outputs : List SeqOutput
  step_results : List StepResult
  steps_completed : Nat
  total_steps : Nat
  total_duration_ms : Nat
  usage_outputs_charged : Nat
  usage_remaining : Nat
deriving DecidableEq

/-- Validation message shared by `run_sequence` and `record_video`. -/
def stepsMissingMsg : String :=
  "Error: \"steps\" must be a non-empty array."

/-- Per-output content pushed by the `run_sequence` loop: image plus text for
a screenshot output, text only for a pdf output, nothing otherwise. -/
def seqOutputContent (o : SeqOutput) : List ContentItem :=
  if o.type = "screenshot" then
    [.image o.data o.content_type,
     .text ("[" ++ o.name ++ "] Screenshot — " ++ o.format ++ ", " ++
       toString o.size_bytes ++ " bytes" ++ ", step " ++ toString o.step_index)]
  else if o.type = "pdf" then
    [.text ("[" ++ o.name ++ "] PDF generated — " ++ o.format ++ ", " ++
       toString o.size_bytes ++ " bytes" ++ ", step " ++ toString o.step_index ++
       " (base64 data available in raw response)")]
  else []

/-- One failed step's fragment in the summary. -/
def failedStepText (s : StepResult) : String :=
  "Step " ++ toString s.step_index ++ " (" ++ s.action ++ "): " ++ s.error

/-- `Array.prototype.join(sep)` / `arr.map(..).join(sep)`. -/
def joinWith (sep : String) : List String → String
  | [] => ""
  | [x] => x
  | x :: y :: ys => x ++ sep ++ joinWith sep (y :: ys)

/-- The base summary line of `run_sequence`. -/
def seqBaseSummary (d : SequenceData) : String :=
  "Sequence complete: " ++ toString d.steps_completed ++ "/" ++
  toString d.total_steps ++ " steps, " ++ toString d.outputs.length ++
  " outputs, " ++ toString d.total_duration_ms ++ "ms total."

/-- The summary text of `run_sequence`: the base line, a failed-steps line
when some step errored, and the usage line. -/
def seqSummaryText (d : SequenceData) : String :=
  seqBaseSummary d ++
  (if (d.step_results.filter (fun s => s.status = "error")).length > 0 then
    "\nFailed steps: " ++
      joinWith "; " ((d.step_results.filter (fun s => s.status = "error")).map failedStepText)
   else "") ++
  "\nUsage: " ++ toString d.usage_outputs_charged ++
  " request(s) charged, " ++ toString d.usage_remaining ++ " remaining."

/-- The `run_sequence` handler.  The whole body after validation sits in a
`try`/`catch` that converts a thrown error into an `isError` result. -/
def run_sequence (env : Env) (p : SeqParams) (res : Response)
    (d : SequenceData) : Outcome :=
  match p.steps with
  | none =>
    { requests := [], writes := []
      result := .ok { content := [.text stepsMissingMsg], isError := true } }
  | some steps =>
    if steps.length = 0 then
      { requests := [], writes := []
        result := .ok { content := [.text stepsMissingMsg], isError := true } }
    else
      match callApi env "/api/v1/sequence" (some "POST") true res with
      | (reqs, .error e) =>
        { requests := reqs, writes := []
          result := .ok { content := [.text ("Sequence error: " ++ e)], isError := true } }
      | (reqs, .ok _) =>
        let content := (d.outputs.map seqOutputContent).flatten ++ [.text (seqSummaryText d)]
        { requests := reqs, writes := []
          result := .ok { content := content, isError := false } }

-- ─── Tool: record_video ─────────────────────────────────────────

/-- The fields of the `record_video` parameter bag the handler reads
(`steps` for validation, `format` for the extension and MIME type, `saveTo`
destructured out before the body is sent). -/
structure VideoParams where
  steps : Option (List SeqStep)
  format : Option String
  saveTo : Option String
deriving DecidableEq

/-- The parsed JSON success body of `/api/v1/video`. -/
structure VideoData where
  data : String
  format : String
  size_bytes : Nat
  duration_ms : Nat
  frames : Nat
  steps_completed : Nat
  total_steps : Nat
  usage_video_cost : Nat
  usage_remaining : Nat
deriving DecidableEq

/-- JS `(num / den).toFixed(1)` for non-negative `num / den`: round half away
from zero to one decimal digit — `n` is `num / den * 10` rounded. -/
def jsToFixed1 (num den : Nat) : String :=
  let n := (20 * num + den) / (2 * den)
  toString (n / 10) ++ "." ++ toString (n % 10)

/-- The file-note line of `record_video`'s success text (with its trailing
newline, as in the source). -/
def videoFileNote (savedPath : Option String) : String :=
  match savedPath with
  | some p => "  File:     " ++ p ++ "\n"
  | none => "  File:     (not saved to disk — use the embedded resource data below)\n"

/-- Success text of `record_video`: size reported in KB and duration in
seconds, both via `toFixed(1)`. -/
def videoSuccessText (savedPath : Option String) (d : VideoData) : String :=
  "Video recorded successfully.\n" ++ videoFileNote savedPath ++
  "  Format:   " ++ d.format ++ "\n" ++
  "  Size:     " ++ jsToFixed1 d.size_bytes 1024 ++ " KB\n" ++
  "  Duration: " ++ jsToFixed1 d.duration_ms 1000 ++ "s\n" ++
  "  Frames:   " ++ toString d.frames ++ "\n" ++
  "  Steps:    " ++ toString d.steps_completed ++ "/" ++ toString d.total_steps ++
  " completed\n" ++
  "  Cost:     " ++ toString d.usage_video_cost ++ " API requests\n" ++
  "  Remaining: " ++ toString d.usage_remaining ++ " requests"

/-- The `record_video` handler.  Same shape as `generate_pdf` (best-effort
disk write) but wrapped in a `try`/`catch` that converts a thrown error into
an `isError` result. -/
def record_video (env : Env) (p : VideoParams) (ctx : PathCtx) (diskOk : Bool)
    (res : Response) (d : VideoData) : Outcome :=
  match p.steps with
  | none =>
    { requests := [], writes := []
      result := .ok { content := [.text stepsMissingMsg], isError := true } }
  | some steps =>
    if steps.length = 0 then
      { requests := [], writes := []
        result := .ok { content := [.text stepsMissingMsg], isError := true } }
    else
      match callApi env "/api/v1/video" (some "POST") true res with
      | (reqs, .error e) =>
        { requests := reqs, writes := []
          result := .ok { content := [.text ("Video recording error: " ++ e)], isError := true } }
      | (reqs, .ok _) =>
        let format := jsOr p.format "mp4"
        let ext := if format = "gif" then "gif" else format
        let mimeType := videoMimeType ext
        let saved := trySave ctx diskOk d.data
        let content : List ContentItem :=
          [.resource ("pagebolt://video/recording." ++ ext) mimeType d.data,
           .text (videoSuccessText saved.1 d)]
        { requests := reqs, writes := saved.2
          result := .ok { content := content, isError := false } }

-- ─── Tool: inspect_page ─────────────────────────────────────────

/-- The fields of the `inspect_page` parameter bag the handler reads
(`url`/`html` for validation, `url` again for the page line); the rest is
forwarded in the body. -/
structure InspectParams where
  url : Option String
  html : Option String
deriving DecidableEq

/-- The `metadata` object of an inspect response. -/
structure InspectMeta where
  description : Option String
  lang : Option String
  httpStatusCode : Option Nat
deriving DecidableEq

/-- One entry of the inspect response's `headings` array. -/
structure Heading where
  level : Nat
  text : String
  selector : String
deriving DecidableEq

/-- The attributes sub-object of an interactive element. -/
structure ElementAttrs where
  type : Option String
  placeholder : Option String
  href : Option String
deriving DecidableEq

/-- One entry of the inspect response's `elements` array. -/
structure PageElement where
  tag : String
  text : Option String
  attributes : Option ElementAttrs
  selector : String
deriving DecidableEq

/-- One entry of the inspect response's `forms` array. -/
structure FormInfo where
  selector : String
  method : Option String
  action : Option String
  fields : List String
deriving DecidableEq

/-- One entry of the inspect response's `links` array. -/
structure LinkInfo where
  text : Option String
  href : String
  selector : String
deriving DecidableEq

/-- One entry of the inspect response's `images` array. -/
structure ImageInfo where
  alt : Option String
  src : String
  selector : String
deriving DecidableEq

/-- The parsed JSON success body of `/api/v1/inspect`. -/
structure InspectData where
  title : Option String
  url : Option String
  metadata : Option InspectMeta
  headings : Option (List Heading)
  elements : Option (List PageElement)
  forms : Option (List FormInfo)
  links : Option (List LinkInfo)
  images : Option (List ImageInfo)
  duration_ms : Nat
deriving DecidableEq

/-- Validation message of `inspect_page`. -/
def inspectMissingMsg : String :=
  "Error: Either \"url\" or \"html\" is required."

/-- A JS-truthiness-guarded fragment: render `f s` when the optional string
is present and non-empty, nothing otherwise. -/
def jsIfStr (o : Option String) (f : String → String) : String :=
  match o with
  | some s => if s = "" then "" else f s
  | none => ""

/-- The metadata lines of the inspect text (each guarded by JS truthiness,
a zero `httpStatusCode` being falsy). -/
def inspectMetaLines (m : InspectMeta) : List String :=
  (match m.description with
   | some s => if s = "" then [] else ["Description: " ++ s]
   | none => []) ++
  (match m.lang with
   | some s => if s = "" then [] else ["Language: " ++ s]
   | none => []) ++
  (match m.httpStatusCode with
   | some n => if n = 0 then [] else ["HTTP Status: " ++ toString n]
   | none => [])

/-- One heading line. -/
def headingLine (h : Heading) : String :=
  "  H" ++ toString h.level ++ ": " ++ h.text ++ " — selector: " ++ h.selector

/-- The `desc` string built for one interactive element. -/
def elementDesc (el : PageElement) : String :=
  let attrType := match el.attributes with
    | some a => a.type
    | none => none
  let attrPlaceholder := match el.attributes with
    | some a => a.placeholder
    | none => none
  let attrHref := match el.attributes with
    | some a => a.href
    | none => none
  "[" ++ el.tag ++ jsIfStr attrType (fun t => " type=" ++ t) ++ "]" ++
  jsIfStr el.text (fun t => " \"" ++ t ++ "\"") ++
  jsIfStr attrPlaceholder (fun t => " placeholder=\"" ++ t ++ "\"") ++
  jsIfStr attrHref (fun t => " → " ++ t) ++
  " — selector: " ++ el.selector

/-- The lines of one form: header plus one line per field. -/
def formLines (f : FormInfo) : List String :=
  ("  " ++ f.selector ++ " (" ++ jsOr f.method "GET" ++ " " ++
    jsOr f.action "(none)" ++ "): " ++ toString f.fields.length ++ " field(s)") ::
  f.fields.map (fun field => "    - " ++ field)

/-- One link line. -/
def linkLine (l : LinkInfo) : String :=
  "  \"" ++ jsOr l.text "(no text)" ++ "\" → " ++ l.href ++ " — selector: " ++ l.selector

/-- One image line. -/
def imageLine (img : ImageInfo) : String :=
  let alt := match img.alt with
    | some a => if a = "" then "(no alt)" else "\"" ++ a ++ "\""
    | none => "(no alt)"
  "  " ++ alt ++ " src=" ++ img.src ++ " — selector: " ++ img.selector

/-- A guarded section of the inspect text: header line, one line block per
entry, then a blank line — emitted only when the array is present and
non-empty. -/
def sectionLines {α : Type} (o : Option (List α)) (header : Nat → String)
    (render : α → List String) : List String :=
  match o with
  | some xs =>
    if xs.length > 0 then header xs.length :: (xs.map render).flatten ++ [""]
    else []
  | none => []

/-- All lines pushed by the `inspect_page` formatter, in source order. -/
def inspectLines (p : InspectParams) (d : InspectData) : List String :=
  ("Page: " ++ jsOr d.title "(untitled)" ++ " (" ++
    jsOr d.url (jsOr p.url "html content") ++ ")") ::
  (match d.metadata with
   | some m => inspectMetaLines m
   | none => []) ++
  [""] ++
  sectionLines d.headings
    (fun n => "Headings (" ++ toString n ++ "):")
    (fun h => [headingLine h]) ++
  sectionLines d.elements
    (fun n => "Interactive Elements (" ++ toString n ++ "):")
    (fun el => ["  " ++ elementDesc el]) ++
  sectionLines d.forms
    (fun n => "Forms (" ++ toString n ++ "):")
    formLines ++
  sectionLines d.links
    (fun n => "Links (" ++ toString n ++ "):")
    (fun l => [linkLine l]) ++
  sectionLines d.images
    (fun n => "Images (" ++ toString n ++ "):")
    (fun img => [imageLine img]) ++
  ["Duration: " ++ toString d.duration_ms ++ "ms"]

/-- The `inspect_page` handler.  Validation, then a `try`/`catch` converting
a thrown error into an `isError` result; on success a single text item made
of the joined lines. -/
def inspect_page (env : Env) (p : InspectParams) (res : Response)
    (d : InspectData) : Outcome :=
  if truthy p.url = false && truthy p.html = false then
    { requests := [], writes := []
      result := .ok { content := [.text inspectMissingMsg], isError := true } }
  else
    match callApi env "/api/v1/inspect" (some "POST") true res with
    | (reqs, .error e) =>
      { requests := reqs, writes := []
        result := .ok { content := [.text ("Inspect error: " ++ e)], isError := true } }
    | (reqs, .ok _) =>
      { requests := reqs, writes := []
        result := .ok { content := [.text (joinWith "\n" (inspectLines p d))], isError := false } }

-- ─── Tool: list_devices ─────────────────────────────────────────

/-- The viewport of one device preset. -/
structure DeviceViewport where
  width : Nat
  height : Nat
  deviceScaleFactor : Nat
deriving DecidableEq

/-- One entry of the devices response's `devices` array. -/
structure Device where
  name : String
  viewport : DeviceViewport
  hasTouch : Bool
  isMobile : Bool
deriving DecidableEq

/-- The parsed JSON success body of `/api/v1/devices`. -/
structure DevicesData where
  devices : List Device
deriving DecidableEq

/-- One device line. -/
def deviceLine (d : Device) : String :=
  let touch := if d.hasTouch then ", touch" else ""
  let mobile := if d.isMobile then ", mobile" else ""
  "  " ++ d.name ++ " — " ++ toString d.viewport.width ++ "x" ++
  toString d.viewport.height ++ " @" ++ toString d.viewport.deviceScaleFactor ++
  "x" ++ mobile ++ touch

/-- The `list_devices` handler: a GET with no body, no validation, no
`try`/`catch`. -/
def list_devices (env : Env) (res : Response) (d : DevicesData) : Outcome :=
  match callApi env "/api/v1/devices" none false res with
  | (reqs, .error e) => { requests := reqs, writes := [], result := .error e }
  | (reqs, .ok _) =>
    let text :=
      "Available device presets (" ++ toString d.devices.length ++ "):\n" ++
      joinWith "\n" (d.devices.map deviceLine) ++
      "\n\nUse the device name as the \"viewportDevice\" parameter in take_screenshot."
    { requests := reqs, writes := []
      result := .ok { content := [.text text], isError := false } }

-- ─── Tool: check_usage ──────────────────────────────────────────

/-- The `usage` object of the usage response.  Integers, so that a zero or
negative `limit` (the guarded case) is representable. -/
structure UsageInfo where
  current : Int
  limit : Int
  remaining : Int
deriving DecidableEq

/-- The parsed JSON success body of `/api/v1/usage`. -/
structure UsageData where
  plan : String
  usage : UsageInfo
deriving DecidableEq

/-- JS `Math.round`: round half toward positive infinity. -/
def jsMathRound (q : ℚ) : ℤ :=
  Int.floor (q + 1 / 2)

/-- The `check_usage` handler.  `locFmt` is the oracle for
`Number.prototype.toLocaleString` (locale-dependent digit grouping); the
percentage itself is rendered with plain number-to-string conversion. -/
def check_usage (env : Env) (res : Response) (d : UsageData)
    (locFmt : Int → String) : Outcome :=
  match callApi env "/api/v1/usage" none false res with
  | (reqs, .error e) => { requests := reqs, writes := [], result := .error e }
  | (reqs, .ok _) =>
    let pct : ℤ :=
      if d.usage.limit > 0 then
        jsMathRound ((d.usage.current : ℚ) / (d.usage.limit : ℚ) * 100)
      else 0
    let text :=
      "PageBolt Usage\n" ++
      "  Plan:      " ++ d.plan ++ "\n" ++
      "  Used:      " ++ locFmt d.usage.current ++ " / " ++ locFmt d.usage.limit ++
      " requests\n" ++
      "  Remaining: " ++ locFmt d.usage.remaining ++ "\n" ++
      "  Usage:     " ++ toString pct ++ "%"
    { requests := reqs, writes := []
      result := .ok { content := [.text text], isError := false } }

-- ─── General lemmas ─────────────────────────────────────────────

/-- Every string contains itself. -/
theorem containsStr_self (s : String) : containsStr s s :=
  List.infix_rfl

/-- Every string contains the empty string. -/
theorem containsStr_nil (s : String) : containsStr s "" :=
  ⟨[], s.data, by simp⟩

/-- A member of a joined list of strings occurs in the join. -/
theorem joinWith_contains (sep : String) :
    ∀ (l : List String) (s : String), s ∈ l → containsStr (joinWith sep l) s
  | [], s, h => absurd h (List.not_mem_nil s)
  | [x], s, h => by
    rw [List.mem_singleton] at h
    rw [h]
    show containsStr x x
    exact containsStr_self x
  | x :: y :: ys, s, h => by
    rcases List.mem_cons.mp h with h1 | h2
    · rw [h1]
      show containsStr ((x ++ sep) ++ joinWith sep (y :: ys)) x
      exact containsStr_mono_right _ (containsStr_mono_right _ (containsStr_self x))
    · show containsStr ((x ++ sep) ++ joinWith sep (y :: ys)) s
      exact containsStr_mono_left _ (joinWith_contains sep (y :: ys) s h2)

/-- `callApi` issues at most one request. -/
theorem callApi_requests_len (env : Env) (ep : String) (m : Option String)
    (hb : Bool) (res : Response) : (callApi env ep m hb res).1.length ≤ 1 := by
  unfold callApi
  cases env.apiKey with
  | none => simp
  | some key =>
    by_cases hk : key = "" <;> simp [hk] <;> split <;> simp

/-- With a missing or empty API key, `callApi` throws before fetching. -/
theorem callApi_no_key (env : Env) (ep : String) (m : Option String)
    (hb : Bool) (res : Response) (h : truthy env.apiKey = false) :
    callApi env ep m hb res = ([], .error apiKeyErrorMsg) := by
  unfold callApi
  cases hkey : env.apiKey with
  | none => rfl
  | some key =>
    rw [hkey] at h
    simp [truthy] at h
    simp [h]

/-- With a present non-empty API key, `callApi` issues exactly one request,
carrying the `x-api-key` header (and `Content-Type` when a body is sent). -/
theorem callApi_one_request (env : Env) (key : String) (hkey : env.apiKey = some key)
    (hk : key ≠ "") (ep : String) (m : Option String) (hb : Bool) (res : Response) :
    (callApi env ep m hb res).1 =
      [{ url := env.baseUrl ++ ep, method := jsOr m "GET",
         headers := buildHeaders key hb, hasBody := hb }] := by
  unfold callApi
  rw [hkey]
  simp only [hk, if_false]
  split <;> rfl

/-- Header membership facts about `buildHeaders`. -/
theorem buildHeaders_mem (key : String) (hb : Bool) :
    ("x-api-key", key) ∈ buildHeaders key hb ∧
    (hb = true → ("Content-Type", "application/json") ∈ buildHeaders key hb) := by
  constructor
  · unfold buildHeaders
    exact List.mem_append_left _ (List.mem_cons_self _ _)
  · intro h
    subst h
    unfold buildHeaders
    simp

/-- A failed `safePath` or a failed `writeFileSync` leaves no saved path and
no recorded write. -/
theorem trySave_fail (ctx : PathCtx) (diskOk : Bool) (b : String)
    (h : (safePath ctx).isOk = false ∨ diskOk = false) :
    trySave ctx diskOk b = (none, []) := by
  rcases h with h | h
  · unfold trySave
    cases hsp : safePath ctx with
    | error e => rfl
    | ok p =>
      rw [hsp] at h
      simp [Except.isOk, Except.toBool] at h
  · unfold trySave
    cases safePath ctx with
    | error e => rfl
    | ok p => simp [h]

-- ─── C1 ─────────────────────────────────────────────────────────

/-- C1: a tool invocation whose parameters are missing all of the
mutually-exclusive source fields (`take_screenshot` with none of
url/html/markdown, `generate_pdf`/`inspect_page` with neither url nor html,
`run_sequence`/`record_video` with an absent or empty `steps` array) returns
a structured failure result (`isError: true` with an explanatory text) and
issues no HTTP request to the backend. -/
theorem C1_missing_source_fields
    (env : Env) (res : Response)
    (sp : ScreenshotParams) (sd : ScreenshotData)
    (pp : PdfParams) (ctx : PathCtx) (diskOk : Bool) (pd : PdfData)
    (ip : InspectParams) (idt : InspectData)
    (qp : SeqParams) (qd : SequenceData)
    (vp : VideoParams) (vd : VideoData)
    (hs : truthy sp.url = false ∧ truthy sp.html = false ∧ truthy sp.markdown = false)
    (hp : truthy pp.url = false ∧ truthy pp.html = false)
    (hi : truthy ip.url = false ∧ truthy ip.html = false)
    (hq : qp.steps = none ∨ qp.steps = some [])
    (hv : vp.steps = none ∨ vp.steps = some []) :
    take_screenshot env sp res sd =
      ⟨[], [], .ok ⟨[.text screenshotMissingMsg], true⟩⟩ ∧
    generate_pdf env pp ctx diskOk res pd =
      ⟨[], [], .ok ⟨[.text pdfMissingMsg], true⟩⟩ ∧
    inspect_page env ip res idt =
      ⟨[], [], .ok ⟨[.text inspectMissingMsg], true⟩⟩ ∧
    run_sequence env qp res qd =
      ⟨[], [], .ok ⟨[.text stepsMissingMsg], true⟩⟩ ∧
    record_video env vp ctx diskOk res vd =
      ⟨[], [], .ok ⟨[.text stepsMissingMsg], true⟩⟩ := by
  obtain ⟨hs1, hs2, hs3⟩ := hs
  obtain ⟨hp1, hp2⟩ := hp
  obtain ⟨hi1, hi2⟩ := hi
  refine ⟨?_, ?_, ?_, ?_, ?_⟩
  · unfold take_screenshot
    simp [hs1, hs2, hs3]
  · unfold generate_pdf
    simp [hp1, hp2]
  · unfold inspect_page
    simp [hi1, hi2]
  · unfold run_sequence
    rcases hq with h | h <;> rw [h] <;> simp
  · unfold record_video
    rcases hv with h | h <;> rw [h] <;> simp

/-- Witness for C1 at concrete empty parameter bags. -/
theorem C1_missing_source_fields_witness :
    take_screenshot ⟨some "k", "https://pagebolt.dev"⟩ ⟨none, none, none, none⟩
      ⟨true, 200, "OK", none⟩ ⟨"", 0, 0, none⟩ =
      ⟨[], [], .ok ⟨[.text screenshotMissingMsg], true⟩⟩ ∧
    run_sequence ⟨some "k", "https://pagebolt.dev"⟩ ⟨some []⟩
      ⟨true, 200, "OK", none⟩ ⟨[], [], 0, 0, 0, 0, 0⟩ =
      ⟨[], [], .ok ⟨[.text stepsMissingMsg], true⟩⟩ := by
  have h := C1_missing_source_fields
    ⟨some "k", "https://pagebolt.dev"⟩ ⟨true, 200, "OK", none⟩
    ⟨none, none, none, none⟩ ⟨"", 0, 0, none⟩
    ⟨none, none, none⟩ ⟨"", ""⟩ true ⟨"", 0, 0⟩
    ⟨none, none⟩ ⟨none, none, none, none, none, none, none, none, 0⟩
    ⟨some []⟩ ⟨[], [], 0, 0, 0, 0, 0⟩
    ⟨some [], none, none⟩ ⟨"", "", 0, 0, 0, 0, 0, 0, 0⟩
    (by decide) (by decide) (by decide) (Or.inr rfl) (Or.inr rfl)
  exact ⟨h.1, h.2.2.2.1⟩

-- ─── C2 ─────────────────────────────────────────────────────────

/-- C2: on a non-2xx backend response, `callApi` throws an error whose
message contains the body's `error` field when that field is present, and
contains the HTTP status code and status text when the body is not parseable
as JSON. -/
theorem C2_non2xx_error_message (env : Env) (key : String) (ep : String)
    (m : Option String) (hb : Bool) (res : Response)
    (hkey : env.apiKey = some key) (hk : key ≠ "") (hok : res.ok = false) :
    (callApi env ep m hb res).2 =
      .error ("PageBolt API error: " ++ extractErrorMsg res) ∧
    (∀ b s, res.errBody = some b → b.errorField = some s →
      containsStr ("PageBolt API error: " ++ extractErrorMsg res) s) ∧
    (res.errBody = none →
      containsStr ("PageBolt API error: " ++ extractErrorMsg res) (toString res.status) ∧
      containsStr ("PageBolt API error: " ++ extractErrorMsg res) res.statusText) := by
  refine ⟨?_, ?_, ?_⟩
  · unfold callApi
    rw [hkey]
    simp [hk, hok]
  · intro b s hb2 hf
    simp only [extractErrorMsg, hb2, hf]
    by_cases hes : s = ""
    · subst hes
      exact containsStr_nil _
    · simp only [hes, if_false]
      exact containsStr_mono_left _ (containsStr_self s)
  · intro hnone
    unfold extractErrorMsg
    rw [hnone]
    constructor
    · exact containsStr_mono_left _ (containsStr_mono_right _
        (containsStr_mono_right _ (containsStr_mono_left _
          (containsStr_self (toString res.status)))))
    · exact containsStr_mono_left _ (containsStr_mono_left _
        (containsStr_self res.statusText))

/-- Witness for C2: a 404 with an unparseable body and a 400 with an `error`
field. -/
theorem C2_non2xx_error_message_witness :
    containsStr ("PageBolt API error: " ++
      extractErrorMsg ⟨false, 404, "Not Found", none⟩) "404" ∧
    containsStr ("PageBolt API error: " ++
      extractErrorMsg ⟨false, 400, "Bad Request", some ⟨some "limit exceeded", "x"⟩⟩)
      "limit exceeded" := by
  have h1 := C2_non2xx_error_message ⟨some "k", "https://pagebolt.dev"⟩ "k"
    "/api/v1/usage" none false ⟨false, 404, "Not Found", none⟩ rfl (by decide) rfl
  have h2 := C2_non2xx_error_message ⟨some "k", "https://pagebolt.dev"⟩ "k"
    "/api/v1/usage" none false ⟨false, 400, "Bad Request", some ⟨some "limit exceeded", "x"⟩⟩
    rfl (by decide) rfl
  exact ⟨(h1.2.2 rfl).1, h2.2.1 ⟨some "limit exceeded", "x"⟩ "limit exceeded" rfl rfl⟩

-- ─── C3 ─────────────────────────────────────────────────────────

/-- C3: a `saveTo` path whose relative form w.r.t. the CWD is absolute or
starts with `..` makes `safePath` throw, and neither `generate_pdf` nor
`record_video` performs any file write on such an invocation. -/
theorem C3_outside_path_rejected (ctx : PathCtx)
    (h : isAbsolutePath ctx.rel = true ∨ strStartsWith ctx.rel ".." = true) :
    safePath ctx = .error "saveTo path must be within the current working directory." ∧
    (∀ env p diskOk res d, (generate_pdf env p ctx diskOk res d).writes = []) ∧
    (∀ env p diskOk res d, (record_video env p ctx diskOk res d).writes = []) := by
  have hsp : safePath ctx =
      .error "saveTo path must be within the current working directory." := by
    unfold safePath
    rcases h with h | h <;> simp [h]
  have hts : ∀ diskOk b, trySave ctx diskOk b = (none, []) := by
    intro diskOk b
    exact trySave_fail ctx diskOk b (Or.inl (by rw [hsp]; rfl))
  refine ⟨hsp, ?_, ?_⟩
  · intro env p diskOk res d
    unfold generate_pdf
    split
    · rfl
    · cases hc : callApi env "/api/v1/pdf" (some "POST") true res with
      | mk reqs r =>
        cases r <;> simp [hts]
  · intro env p diskOk res d
    unfold record_video
    cases p.steps with
    | none => rfl
    | some steps =>
      split
      · rfl
      · cases hc : callApi env "/api/v1/video" (some "POST") true res with
        | mk reqs r =>
          cases r <;> (split <;> simp [hts])

/-- Witness for C3 at the concrete traversal path `../../etc/passwd`. -/
theorem C3_outside_path_rejected_witness :
    safePath ⟨"/etc/passwd", "../../etc/passwd"⟩ =
      .error "saveTo path must be within the current working directory." ∧
    (generate_pdf ⟨some "k", "https://pagebolt.dev"⟩ ⟨some "https://x.test", none, some "../../etc/passwd"⟩
      ⟨"/etc/passwd", "../../etc/passwd"⟩ true ⟨true, 200, "OK", none⟩ ⟨"QUJD", 3, 5⟩).writes = [] := by
  have h := C3_outside_path_rejected ⟨"/etc/passwd", "../../etc/passwd"⟩ (Or.inr (by decide))
  exact ⟨h.1, h.2.1 ⟨some "k", "https://pagebolt.dev"⟩
    ⟨some "https://x.test", none, some "../../etc/passwd"⟩ true ⟨true, 200, "OK", none⟩ ⟨"QUJD", 3, 5⟩⟩

-- ─── C5 ─────────────────────────────────────────────────────────

/-- C5: every tool invocation issues at most one HTTP request to the backend;
in particular no request is ever reissued (no retries), whatever the input
and whatever the backend response. -/
theorem C5_at_most_one_request :
    (∀ env p res d, (take_screenshot env p res d).requests.length ≤ 1) ∧
    (∀ env p ctx diskOk res d, (generate_pdf env p ctx diskOk res d).requests.length ≤ 1) ∧
    (∀ env p res d, (create_og_image env p res d).requests.length ≤ 1) ∧
    (∀ env p res d, (run_sequence env p res d).requests.length ≤ 1) ∧
    (∀ env p ctx diskOk res d, (record_video env p ctx diskOk res d).requests.length ≤ 1) ∧
    (∀ env p res d, (inspect_page env p res d).requests.length ≤ 1) ∧
    (∀ env res d, (list_devices env res d).requests.length ≤ 1) ∧
    (∀ env res d locFmt, (check_usage env res d locFmt).requests.length ≤ 1) := by
  refine ⟨?_, ?_, ?_, ?_, ?_, ?_, ?_, ?_⟩
  · intro env p res d
    have hlen := callApi_requests_len env "/api/v1/screenshot" (some "POST") true res
    unfold take_screenshot
    split
    · simp
    · cases hc : callApi env "/api/v1/screenshot" (some "POST") true res with
      | mk reqs r =>
        cases r <;> simp_all
  · intro env p ctx diskOk res d
    have hlen := callApi_requests_len env "/api/v1/pdf" (some "POST") true res
    unfold generate_pdf
    split
    · simp
    · cases hc : callApi env "/api/v1/pdf" (some "POST") true res with
      | mk reqs r =>
        cases r <;> simp_all
  · intro env p res d
    have hlen := callApi_requests_len env "/api/v1/og-image" (some "POST") true res
    unfold create_og_image
    cases hc : callApi env "/api/v1/og-image" (some "POST") true res with
    | mk reqs r =>
      cases r <;> simp_all
  · intro env p res d
    have hlen := callApi_requests_len env "/api/v1/sequence" (some "POST") true res
    unfold run_sequence
    cases p.steps with
    | none => simp
    | some steps =>
      split
      · simp
      · cases hc : callApi env "/api/v1/sequence" (some "POST") true res with
        | mk reqs r =>
          cases r <;> (split <;> simp_all)
  · intro env p ctx diskOk res d
    have hlen := callApi_requests_len env "/api/v1/video" (some "POST") true res
    unfold record_video
    cases p.steps with
    | none => simp
    | some steps =>
      split
      · simp
      · cases hc : callApi env "/api/v1/video" (some "POST") true res with
        | mk reqs r =>
          cases r <;> (split <;> simp_all)
  · intro env p res d
    have hlen := callApi_requests_len env "/api/v1/inspect" (some "POST") true res
    unfold inspect_page
    split
    · simp
    · cases hc : callApi env "/api/v1/inspect" (some "POST") true res with
      | mk reqs r =>
        cases r <;> simp_all
  · intro env res d
    have hlen := callApi_requests_len env "/api/v1/devices" none false res
    unfold list_devices
    cases hc : callApi env "/api/v1/devices" none false res with
    | mk reqs r =>
      cases r <;> simp_all
  · intro env res d locFmt
    have hlen := callApi_requests_len env "/api/v1/usage" none false res
    unfold check_usage
    cases hc : callApi env "/api/v1/usage" none false res with
    | mk reqs r =>
      cases r <;> simp_all

-- ─── Request-trace lemmas (shared by C6/C7/C8) ──────────────────

/-- The requests of `take_screenshot` are empty or exactly those of its
`callApi` call. -/
theorem take_screenshot_requests (env : Env) (p : ScreenshotParams)
    (res : Response) (d : ScreenshotData) :
    (take_screenshot env p res d).requests = [] ∨
    (take_screenshot env p res d).requests =
      (callApi env "/api/v1/screenshot" (some "POST") true res).1 := by
  unfold take_screenshot
  split
  · exact Or.inl rfl
  · split
    next reqs e heq => exact Or.inr (by rw [heq])
    next reqs a heq => exact Or.inr (by rw [heq])

/-- The requests of `generate_pdf` are empty or those of its `callApi` call. -/
theorem generate_pdf_requests (env : Env) (p : PdfParams) (ctx : PathCtx)
    (diskOk : Bool) (res : Response) (d : PdfData) :
    (generate_pdf env p ctx diskOk res d).requests = [] ∨
    (generate_pdf env p ctx diskOk res d).requests =
      (callApi env "/api/v1/pdf" (some "POST") true res).1 := by
  unfold generate_pdf
  split
  · exact Or.inl rfl
  · split
    next reqs e heq => exact Or.inr (by rw [heq])
    next reqs a heq => exact Or.inr (by rw [heq])

/-- The requests of `create_og_image` are those of its `callApi` call. -/
theorem create_og_image_requests (env : Env) (p : OgParams) (res : Response)
    (d : OgData) :
    (create_og_image env p res d).requests =
      (callApi env "/api/v1/og-image" (some "POST") true res).1 := by
  unfold create_og_image
  split
  next reqs e heq => rw [heq]
  next reqs a heq => rw [heq]

/-- The requests of `run_sequence` are empty or those of its `callApi` call. -/
theorem run_sequence_requests (env : Env) (p : SeqParams) (res : Response)
    (d : SequenceData) :
    (run_sequence env p res d).requests = [] ∨
    (run_sequence env p res d).requests =
      (callApi env "/api/v1/sequence" (some "POST") true res).1 := by
  unfold run_sequence
  split
  · exact Or.inl rfl
  · split
    · exact Or.inl rfl
    · split
      next reqs e heq => exact Or.inr (by rw [heq])
      next reqs a heq => exact Or.inr (by rw [heq])

/-- The requests of `record_video` are empty or those of its `callApi` call. -/
theorem record_video_requests (env : Env) (p : VideoParams) (ctx : PathCtx)
    (diskOk : Bool) (res : Response) (d : VideoData) :
    (record_video env p ctx diskOk res d).requests = [] ∨
    (record_video env p ctx diskOk res d).requests =
      (callApi env "/api/v1/video" (some "POST") true res).1 := by
  unfold record_video
  split
  · exact Or.inl rfl
  · split
    · exact Or.inl rfl
    · split
      next reqs e heq => exact Or.inr (by rw [heq])
      next reqs a heq => exact Or.inr (by rw [heq])

/-- The requests of `inspect_page` are empty or those of its `callApi` call. -/
theorem inspect_page_requests (env : Env) (p : InspectParams) (res : Response)
    (d : InspectData) :
    (inspect_page env p res d).requests = [] ∨
    (inspect_page env p res d).requests =
      (callApi env "/api/v1/inspect" (some "POST") true res).1 := by
  unfold inspect_page
  split
  · exact Or.inl rfl
  · split
    next reqs e heq => exact Or.inr (by rw [heq])
    next reqs a heq => exact Or.inr (by rw [heq])

/-- The requests of `list_devices` are those of its `callApi` call. -/
theorem list_devices_requests (env : Env) (res : Response) (d : DevicesData) :
    (list_devices env res d).requests =
      (callApi env "/api/v1/devices" none false res).1 := by
  unfold list_devices
  split
  next reqs e heq => rw [heq]
  next reqs a heq => rw [heq]

/-- The requests of `check_usage` are those of its `callApi` call. -/
theorem check_usage_requests (env : Env) (res : Response) (d : UsageData)
    (locFmt : Int → String) :
    (check_usage env res d locFmt).requests =
      (callApi env "/api/v1/usage" none false res).1 := by
  unfold check_usage
  split
  next reqs e heq => rw [heq]
  next reqs a heq => rw [heq]

/-- Every request `callApi` issues carries the configured API key, and the
JSON content type whenever a body is sent. -/
theorem callApi_headers (env : Env) (key : String) (hkey : env.apiKey = some key)
    (ep : String) (m : Option String) (hb : Bool) (res : Response) :
    ∀ req ∈ (callApi env ep m hb res).1,
      ("x-api-key", key) ∈ req.headers ∧
      (req.hasBody = true → ("Content-Type", "application/json") ∈ req.headers) := by
  intro req hreq
  by_cases hk : key = ""
  · rw [callApi_no_key env ep m hb res (by simp [truthy, hkey, hk])] at hreq
    exact absurd hreq (List.not_mem_nil req)
  · rw [callApi_one_request env key hkey hk ep m hb res] at hreq
    rw [List.mem_singleton] at hreq
    subst hreq
    exact buildHeaders_mem key hb

-- ─── C6 ─────────────────────────────────────────────────────────

/-- The best-effort save block writes at most one file, and only at a path
validated by `safePath`. -/
theorem trySave_writes (ctx : PathCtx) (diskOk : Bool) (b : String) :
    (trySave ctx diskOk b).2.length ≤ 1 ∧
    ∀ w ∈ (trySave ctx diskOk b).2, safePath ctx = .ok w.path := by
  unfold trySave
  cases hsp : safePath ctx with
  | error e => exact ⟨by simp, by intro w hw; simp at hw⟩
  | ok p =>
    cases diskOk with
    | false => exact ⟨by simp, by intro w hw; simp at hw⟩
    | true =>
      refine ⟨by simp, ?_⟩
      intro w hw
      simp at hw
      subst hw
      rfl

/-- C6: no tool persists state across calls beyond the optional output file:
only `generate_pdf` and `record_video` ever write to disk — a single file at
the `safePath`-validated output path — and every other tool performs no file
write at all. -/
theorem C6_only_pdf_and_video_write :
    (∀ env p res d, (take_screenshot env p res d).writes = []) ∧
    (∀ env p res d, (create_og_image env p res d).writes = []) ∧
    (∀ env p res d, (run_sequence env p res d).writes = []) ∧
    (∀ env p res d, (inspect_page env p res d).writes = []) ∧
    (∀ env res d, (list_devices env res d).writes = []) ∧
    (∀ env res d locFmt, (check_usage env res d locFmt).writes = []) ∧
    (∀ env p ctx diskOk res d,
      (generate_pdf env p ctx diskOk res d).writes.length ≤ 1 ∧
      ∀ w ∈ (generate_pdf env p ctx diskOk res d).writes, safePath ctx = .ok w.path) ∧
    (∀ env p ctx diskOk res d,
      (record_video env p ctx diskOk res d).writes.length ≤ 1 ∧
      ∀ w ∈ (record_video env p ctx diskOk res d).writes, safePath ctx = .ok w.path) := by
  refine ⟨?_, ?_, ?_, ?_, ?_, ?_, ?_, ?_⟩
  · intro env p res d
    unfold take_screenshot
    split
    · rfl
    · split <;> rfl
  · intro env p res d
    unfold create_og_image
    split <;> rfl
  · intro env p res d
    unfold run_sequence
    split
    · rfl
    · split
      · rfl
      · split <;> rfl
  · intro env p res d
    unfold inspect_page
    split
    · rfl
    · split <;> rfl
  · intro env res d
    unfold list_devices
    split <;> rfl
  · intro env res d locFmt
    unfold check_usage
    split <;> rfl
  · intro env p ctx diskOk res d
    have hts := trySave_writes ctx diskOk d.data
    unfold generate_pdf
    split
    · exact ⟨by simp, by intro w hw; simp at hw⟩
    · split
      next reqs e heq => exact ⟨by simp, by intro w hw; simp at hw⟩
      next reqs a heq => exact ⟨hts.1, hts.2⟩
  · intro env p ctx diskOk res d
    have hts := trySave_writes ctx diskOk d.data
    unfold record_video
    split
    · exact ⟨by simp, by intro w hw; simp at hw⟩
    · split
      · exact ⟨by simp, by intro w hw; simp at hw⟩
      · split
        next reqs e heq => exact ⟨by simp, by intro w hw; simp at hw⟩
        next reqs a heq => exact ⟨hts.1, hts.2⟩

/-- Witness for C6: a concrete `generate_pdf` run writes exactly one file, at
the path `safePath` validated. -/
theorem C6_only_pdf_and_video_write_witness :
    (generate_pdf ⟨some "k", "https://pagebolt.dev"⟩ ⟨some "https://x.test", none, none⟩
       ⟨"/cwd/output.pdf", "output.pdf"⟩ true ⟨true, 200, "OK", none⟩ ⟨"QUJD", 3, 5⟩).writes =
      [⟨"/cwd/output.pdf", "QUJD"⟩] ∧
    safePath ⟨"/cwd/output.pdf", "output.pdf"⟩ = .ok "/cwd/output.pdf" := by
  refine ⟨by decide, ?_⟩
  exact (C6_only_pdf_and_video_write.2.2.2.2.2.2.1 ⟨some "k", "https://pagebolt.dev"⟩
    ⟨some "https://x.test", none, none⟩ ⟨"/cwd/output.pdf", "output.pdf"⟩ true
    ⟨true, 200, "OK", none⟩ ⟨"QUJD", 3, 5⟩).2 ⟨"/cwd/output.pdf", "QUJD"⟩ (by decide)

-- ─── C7 ─────────────────────────────────────────────────────────

/-- C7: every outbound request of every tool carries the `x-api-key` header
with the configured key, and, when it has a JSON body,
`Content-Type: application/json`. -/
theorem C7_auth_headers (env : Env) (key : String) (hkey : env.apiKey = some key) :
    (∀ p res d, ∀ req ∈ (take_screenshot env p res d).requests,
      ("x-api-key", key) ∈ req.headers ∧
      (req.hasBody = true → ("Content-Type", "application/json") ∈ req.headers)) ∧
    (∀ p ctx diskOk res d, ∀ req ∈ (generate_pdf env p ctx diskOk res d).requests,
      ("x-api-key", key) ∈ req.headers ∧
      (req.hasBody = true → ("Content-Type", "application/json") ∈ req.headers)) ∧
    (∀ p res d, ∀ req ∈ (create_og_image env p res d).requests,
      ("x-api-key", key) ∈ req.headers ∧
      (req.hasBody = true → ("Content-Type", "application/json") ∈ req.headers)) ∧
    (∀ p res d, ∀ req ∈ (run_sequence env p res d).requests,
      ("x-api-key", key) ∈ req.headers ∧
      (req.hasBody = true → ("Content-Type", "application/json") ∈ req.headers)) ∧
    (∀ p ctx diskOk res d, ∀ req ∈ (record_video env p ctx diskOk res d).requests,
      ("x-api-key", key) ∈ req.headers ∧
      (req.hasBody = true → ("Content-Type", "application/json") ∈ req.headers)) ∧
    (∀ p res d, ∀ req ∈ (inspect_page env p res d).requests,
      ("x-api-key", key) ∈ req.headers ∧
      (req.hasBody = true → ("Content-Type", "application/json") ∈ req.headers)) ∧
    (∀ res d, ∀ req ∈ (list_devices env res d).requests,
      ("x-api-key", key) ∈ req.headers ∧
      (req.hasBody = true → ("Content-Type", "application/json") ∈ req.headers)) ∧
    (∀ res d locFmt, ∀ req ∈ (check_usage env res d locFmt).requests,
      ("x-api-key", key) ∈ req.headers ∧
      (req.hasBody = true → ("Content-Type", "application/json") ∈ req.headers)) := by
  refine ⟨?_, ?_, ?_, ?_, ?_, ?_, ?_, ?_⟩
  · intro p res d req hreq
    rcases take_screenshot_requests env p res d with h | h
    · rw [h] at hreq
      exact absurd hreq (List.not_mem_nil req)
    · rw [h] at hreq
      exact callApi_headers env key hkey _ _ _ res req hreq
  · intro p ctx diskOk res d req hreq
    rcases generate_pdf_requests env p ctx diskOk res d with h | h
    · rw [h] at hreq
      exact absurd hreq (List.not_mem_nil req)
    · rw [h] at hreq
      exact callApi_headers env key hkey _ _ _ res req hreq
  · intro p res d req hreq
    rw [create_og_image_requests env p res d] at hreq
    exact callApi_headers env key hkey _ _ _ res req hreq
  · intro p res d req hreq
    rcases run_sequence_requests env p res d with h | h
    · rw [h] at hreq
      exact absurd hreq (List.not_mem_nil req)
    · rw [h] at hreq
      exact callApi_headers env key hkey _ _ _ res req hreq
  · intro p ctx diskOk res d req hreq
    rcases record_video_requests env p ctx diskOk res d with h | h
    · rw [h] at hreq
      exact absurd hreq (List.not_mem_nil req)
    · rw [h] at hreq
      exact callApi_headers env key hkey _ _ _ res req hreq
  · intro p res d req hreq
    rcases inspect_page_requests env p res d with h | h
    · rw [h] at hreq
      exact absurd hreq (List.not_mem_nil req)
    · rw [h] at hreq
      exact callApi_headers env key hkey _ _ _ res req hreq
  · intro res d req hreq
    rw [list_devices_requests env res d] at hreq
    exact callApi_headers env key hkey _ _ _ res req hreq
  · intro res d locFmt req hreq
    rw [check_usage_requests env res d locFmt] at hreq
    exact callApi_headers env key hkey _ _ _ res req hreq

/-- Witness for C7: the single request of a concrete `take_screenshot` run
carries the key and the JSON content type. -/
theorem C7_auth_headers_witness :
    ("x-api-key", "secret") ∈
      (Request.mk "https://pagebolt.dev/api/v1/screenshot" "POST"
        (buildHeaders "secret" true) true).headers ∧
    ("Content-Type", "application/json") ∈
      (Request.mk "https://pagebolt.dev/api/v1/screenshot" "POST"
        (buildHeaders "secret" true) true).headers := by
  have h := (C7_auth_headers ⟨some "secret", "https://pagebolt.dev"⟩ "secret" rfl).1
    ⟨some "https://x.test", none, none, none⟩ ⟨true, 200, "OK", none⟩ ⟨"QUJD", 3, 5, none⟩
    (Request.mk "https://pagebolt.dev/api/v1/screenshot" "POST"
      (buildHeaders "secret" true) true) (by decide)
  exact ⟨h.1, h.2 rfl⟩

-- ─── C8 ─────────────────────────────────────────────────────────

/-- C8: with `PAGEBOLT_API_KEY` unset or empty, no tool ever issues an HTTP
request, and every invocation that passes its local parameter validation
(and so would contact the backend) fails with an error. -/
theorem C8_missing_api_key (env : Env) (hkey : truthy env.apiKey = false) :
    (∀ p res d, (take_screenshot env p res d).requests = [] ∧
      ((truthy p.url || truthy p.html || truthy p.markdown) = true →
        failedOutcome (take_screenshot env p res d) = true)) ∧
    (∀ p ctx diskOk res d, (generate_pdf env p ctx diskOk res d).requests = [] ∧
      ((truthy p.url || truthy p.html) = true →
        failedOutcome (generate_pdf env p ctx diskOk res d) = true)) ∧
    (∀ p res d, (create_og_image env p res d).requests = [] ∧
      failedOutcome (create_og_image env p res d) = true) ∧
    (∀ p res d, (run_sequence env p res d).requests = [] ∧
      (∀ steps, p.steps = some steps → steps ≠ [] →
        failedOutcome (run_sequence env p res d) = true)) ∧
    (∀ p ctx diskOk res d, (record_video env p ctx diskOk res d).requests = [] ∧
      (∀ steps, p.steps = some steps → steps ≠ [] →
        failedOutcome (record_video env p ctx diskOk res d) = true)) ∧
    (∀ p res d, (inspect_page env p res d).requests = [] ∧
      ((truthy p.url || truthy p.html) = true →
        failedOutcome (inspect_page env p res d) = true)) ∧
    (∀ res d, (list_devices env res d).requests = [] ∧
      failedOutcome (list_devices env res d) = true) ∧
    (∀ res d locFmt, (check_usage env res d locFmt).requests = [] ∧
      failedOutcome (check_usage env res d locFmt) = true) := by
  refine ⟨?_, ?_, ?_, ?_, ?_, ?_, ?_, ?_⟩
  · intro p res d
    have hca := callApi_no_key env "/api/v1/screenshot" (some "POST") true res hkey
    unfold take_screenshot
    rw [hca]
    constructor
    · split <;> rfl
    · intro hv
      split
      · exfalso
        simp_all
      · simp [failedOutcome]
  · intro p ctx diskOk res d
    have hca := callApi_no_key env "/api/v1/pdf" (some "POST") true res hkey
    unfold generate_pdf
    rw [hca]
    constructor
    · split <;> rfl
    · intro hv
      split
      · exfalso
        simp_all
      · simp [failedOutcome]
  · intro p res d
    have hca := callApi_no_key env "/api/v1/og-image" (some "POST") true res hkey
    unfold create_og_image
    rw [hca]
    exact ⟨rfl, rfl⟩
  · intro p res d
    have hca := callApi_no_key env "/api/v1/sequence" (some "POST") true res hkey
    unfold run_sequence
    rw [hca]
    refine ⟨?_, ?_⟩
    · split
      · rfl
      · split <;> rfl
    · intro steps hps hne
      rw [hps]
      have hlen : ¬ steps.length = 0 := by simpa using hne
      simp [hlen, failedOutcome]
  · intro p ctx diskOk res d
    have hca := callApi_no_key env "/api/v1/video" (some "POST") true res hkey
    unfold record_video
    rw [hca]
    refine ⟨?_, ?_⟩
    · split
      · rfl
      · split <;> rfl
    · intro steps hps hne
      rw [hps]
      have hlen : ¬ steps.length = 0 := by simpa using hne
      simp [hlen, failedOutcome]
  · intro p res d
    have hca := callApi_no_key env "/api/v1/inspect" (some "POST") true res hkey
    unfold inspect_page
    rw [hca]
    constructor
    · split <;> rfl
    · intro hv
      split
      · exfalso
        simp_all
      · simp [failedOutcome]
  · intro res d
    have hca := callApi_no_key env "/api/v1/devices" none false res hkey
    unfold list_devices
    rw [hca]
    exact ⟨rfl, rfl⟩
  · intro res d locFmt
    have hca := callApi_no_key env "/api/v1/usage" none false res hkey
    unfold check_usage
    rw [hca]
    exact ⟨rfl, rfl⟩

/-- Witness for C8: with no key configured, a concrete `check_usage` and a
concrete validated `take_screenshot` both fail without issuing a request. -/
theorem C8_missing_api_key_witness :
    (check_usage ⟨none, "https://pagebolt.dev"⟩ ⟨true, 200, "OK", none⟩
       ⟨"free", ⟨10, 100, 90⟩⟩ toString).requests = [] ∧
    failedOutcome (check_usage ⟨none, "https://pagebolt.dev"⟩ ⟨true, 200, "OK", none⟩
       ⟨"free", ⟨10, 100, 90⟩⟩ toString) = true ∧
    failedOutcome (take_screenshot ⟨none, "https://pagebolt.dev"⟩
       ⟨some "https://x.test", none, none, none⟩ ⟨true, 200, "OK", none⟩
       ⟨"QUJD", 3, 5, none⟩) = true := by
  have h := C8_missing_api_key ⟨none, "https://pagebolt.dev"⟩ rfl
  have hu := h.2.2.2.2.2.2.2 ⟨true, 200, "OK", none⟩ ⟨"free", ⟨10, 100, 90⟩⟩ toString
  have hs := (h.1 ⟨some "https://x.test", none, none, none⟩ ⟨true, 200, "OK", none⟩
    ⟨"QUJD", 3, 5, none⟩).2 (by decide)
  exact ⟨hu.1, hu.2, hs⟩

-- ─── C9 ─────────────────────────────────────────────────────────

/-- With a present non-empty key and an ok response, `callApi` returns the
response after exactly one request. -/
theorem callApi_ok (env : Env) (key : String) (hkey : env.apiKey = some key)
    (hk : key ≠ "") (ep : String) (m : Option String) (hb : Bool) (res : Response)
    (hok : res.ok = true) :
    callApi env ep m hb res =
      ([{ url := env.baseUrl ++ ep, method := jsOr m "GET",
          headers := buildHeaders key hb, hasBody := hb }], .ok res) := by
  unfold callApi
  rw [hkey]
  simp [hk, hok]

/-- C9: when the local disk write fails — including a `saveTo` rejected by
`safePath` — `generate_pdf` and `record_video` still return a success result
(no `isError`) carrying the full base64 payload as an embedded resource, and
their text notes that the file was not saved to disk. -/
theorem C9_disk_failure_still_success
    (env : Env) (key : String) (hkey : env.apiKey = some key) (hk : key ≠ "")
    (res : Response) (hok : res.ok = true)
    (ctx : PathCtx) (diskOk : Bool)
    (hfail : (safePath ctx).isOk = false ∨ diskOk = false) :
    (∀ p d, (truthy p.url || truthy p.html) = true →
      (generate_pdf env p ctx diskOk res d).writes = [] ∧
      (generate_pdf env p ctx diskOk res d).result =
        .ok ⟨[.resource "pagebolt://pdf/output.pdf" "application/pdf" d.data,
              .text (pdfSuccessText none d.size_bytes d.duration_ms)], false⟩ ∧
      containsStr (pdfSuccessText none d.size_bytes d.duration_ms) "(not saved to disk") ∧
    (∀ p d steps, p.steps = some steps → steps ≠ [] →
      (record_video env p ctx diskOk res d).writes = [] ∧
      (record_video env p ctx diskOk res d).result =
        .ok ⟨[.resource ("pagebolt://video/recording." ++
                (if jsOr p.format "mp4" = "gif" then "gif" else jsOr p.format "mp4"))
                (videoMimeType (if jsOr p.format "mp4" = "gif" then "gif" else jsOr p.format "mp4"))
                d.data,
              .text (videoSuccessText none d)], false⟩ ∧
      containsStr (videoSuccessText none d) "(not saved to disk") := by
  have hpdfnote : containsStr (pdfFileNote none) "(not saved to disk" := by decide
  have hvidnote : containsStr (videoFileNote none) "(not saved to disk" := by decide
  constructor
  · intro p d hv
    have hca := callApi_ok env key hkey hk "/api/v1/pdf" (some "POST") true res hok
    have hts := trySave_fail ctx diskOk d.data hfail
    have hcond : (truthy p.url = false && truthy p.html = false) = false := by
      cases hu : truthy p.url <;> cases hh : truthy p.html <;> simp_all
    refine ⟨?_, ?_, ?_⟩
    · unfold generate_pdf
      rw [hcond, hca, hts]
      rfl
    · unfold generate_pdf
      rw [hcond, hca, hts]
      rfl
    · unfold pdfSuccessText
      repeat
        first
          | exact containsStr_mono_left _ hpdfnote
          | apply containsStr_mono_right
  · intro p d steps hps hne
    have hca := callApi_ok env key hkey hk "/api/v1/video" (some "POST") true res hok
    have hts := trySave_fail ctx diskOk d.data hfail
    have hlen : (steps.length = 0) = False := by simp [hne]
    refine ⟨?_, ?_, ?_⟩
    · unfold record_video
      rw [hps, hca, hts]
      simp [hne]
    · unfold record_video
      rw [hps, hca, hts]
      simp [hne]
    · unfold videoSuccessText
      repeat
        first
          | exact containsStr_mono_left _ hvidnote
          | apply containsStr_mono_right

/-- Witness for C9: a concrete `generate_pdf` with a rejected `saveTo` path
still succeeds, with the payload in the resource and no file written. -/
theorem C9_disk_failure_still_success_witness :
    (generate_pdf ⟨some "k", "https://pagebolt.dev"⟩ ⟨some "https://x.test", none, some "/etc/x"⟩
       ⟨"/etc/x", "../../etc/x"⟩ true ⟨true, 200, "OK", none⟩ ⟨"QUJD", 3, 5⟩).writes = [] ∧
    (generate_pdf ⟨some "k", "https://pagebolt.dev"⟩ ⟨some "https://x.test", none, some "/etc/x"⟩
       ⟨"/etc/x", "../../etc/x"⟩ true ⟨true, 200, "OK", none⟩ ⟨"QUJD", 3, 5⟩).result =
      .ok ⟨[.resource "pagebolt://pdf/output.pdf" "application/pdf" "QUJD",
            .text (pdfSuccessText none 3 5)], false⟩ ∧
    containsStr (pdfSuccessText none 3 5) "(not saved to disk" := by
  have h := (C9_disk_failure_still_success ⟨some "k", "https://pagebolt.dev"⟩ "k" rfl
    (by decide) ⟨true, 200, "OK", none⟩ rfl ⟨"/etc/x", "../../etc/x"⟩ true
    (Or.inl (by decide))).1
    ⟨some "https://x.test", none, some "/etc/x"⟩ ⟨"QUJD", 3, 5⟩ (by decide)
  exact h

-- ─── C10 ────────────────────────────────────────────────────────

/-- C10: `check_usage` reports `round(current / limit * 100)` per cent when
the limit is positive and `0` per cent when the limit is zero or negative —
never dividing by a non-positive limit. -/
theorem C10_usage_percentage (env : Env) (key : String) (hkey : env.apiKey = some key)
    (hk : key ≠ "") (res : Response) (hok : res.ok = true) (d : UsageData)
    (locFmt : Int → String) :
    (0 < d.usage.limit →
      ∃ t ∈ resultTexts (check_usage env res d locFmt),
        containsStr t ("  Usage:     " ++
          toString (jsMathRound ((d.usage.current : ℚ) / (d.usage.limit : ℚ) * 100)) ++ "%")) ∧
    (d.usage.limit ≤ 0 →
      ∃ t ∈ resultTexts (check_usage env res d locFmt),
        containsStr t ("  Usage:     " ++ toString (0 : ℤ) ++ "%")) := by
  have hca := callApi_ok env key hkey hk "/api/v1/usage" none false res hok
  constructor
  · intro hpos
    have hres : resultTexts (check_usage env res d locFmt) =
        ["PageBolt Usage\n" ++ "  Plan:      " ++ d.plan ++ "\n" ++ "  Used:      " ++
         locFmt d.usage.current ++ " / " ++ locFmt d.usage.limit ++ " requests\n" ++
         "  Remaining: " ++ locFmt d.usage.remaining ++ "\n" ++ "  Usage:     " ++
         toString (jsMathRound ((d.usage.current : ℚ) / (d.usage.limit : ℚ) * 100)) ++ "%"] := by
      unfold check_usage
      rw [hca]
      simp [resultTexts, hpos]
    rw [hres]
    refine ⟨_, List.mem_singleton.mpr rfl, ?_⟩
    show containsStr _ _
    show (("  Usage:     " ++
      toString (jsMathRound ((d.usage.current : ℚ) / (d.usage.limit : ℚ) * 100)) ++ "%")).data <:+: _
    simp only [String.data_append, List.append_assoc]
    repeat
      first
        | exact List.infix_rfl
        | apply listInfix_skip
  · intro hneg
    have hnpos : ¬ (0 : Int) < d.usage.limit := by omega
    have hres : resultTexts (check_usage env res d locFmt) =
        ["PageBolt Usage\n" ++ "  Plan:      " ++ d.plan ++ "\n" ++ "  Used:      " ++
         locFmt d.usage.current ++ " / " ++ locFmt d.usage.limit ++ " requests\n" ++
         "  Remaining: " ++ locFmt d.usage.remaining ++ "\n" ++ "  Usage:     " ++
         toString (0 : ℤ) ++ "%"] := by
      unfold check_usage
      rw [hca]
      simp [resultTexts, hnpos]
    rw [hres]
    refine ⟨_, List.mem_singleton.mpr rfl, ?_⟩
    show (("  Usage:     " ++ toString (0 : ℤ) ++ "%")).data <:+: _
    simp only [String.data_append, List.append_assoc]
    repeat
      first
        | exact List.infix_rfl
        | apply listInfix_skip

/-- Witness for C10: 333/1000 requests reports 33 per cent, and a zero limit
reports 0 per cent. -/
theorem C10_usage_percentage_witness :
    (∃ t ∈ resultTexts (check_usage ⟨some "k", "https://pagebolt.dev"⟩
        ⟨true, 200, "OK", none⟩ ⟨"pro", ⟨333, 1000, 667⟩⟩ toString),
      containsStr t ("  Usage:     " ++
        toString (jsMathRound ((333 : ℚ) / (1000 : ℚ) * 100)) ++ "%")) ∧
    (∃ t ∈ resultTexts (check_usage ⟨some "k", "https://pagebolt.dev"⟩
        ⟨true, 200, "OK", none⟩ ⟨"free", ⟨0, 0, 0⟩⟩ toString),
      containsStr t ("  Usage:     " ++ toString (0 : ℤ) ++ "%")) := by
  constructor
  · exact (C10_usage_percentage ⟨some "k", "https://pagebolt.dev"⟩ "k" rfl (by decide)
      ⟨true, 200, "OK", none⟩ rfl ⟨"pro", ⟨333, 1000, 667⟩⟩ toString).1 (by decide)
  · exact (C10_usage_percentage ⟨some "k", "https://pagebolt.dev"⟩ "k" rfl (by decide)
      ⟨true, 200, "OK", none⟩ rfl ⟨"free", ⟨0, 0, 0⟩⟩ toString).2 (by decide)

-- ─── C4 ─────────────────────────────────────────────────────────

/-- A two-segment pattern aligned at the head of a right-nested append. -/
theorem listInfix_take2 {α : Type} (t1 t2 rest : List α) :
    t1 ++ t2 <:+: t1 ++ (t2 ++ rest) :=
  ⟨[], rest, by simp⟩

/-- A three-segment pattern aligned at the head of a right-nested append. -/
theorem listInfix_take3 {α : Type} (t1 t2 t3 rest : List α) :
    t1 ++ t2 ++ t3 <:+: t1 ++ (t2 ++ (t3 ++ rest)) :=
  ⟨[], rest, by simp⟩

/-- A text item of a returned result shows up in `resultTexts`. -/
theorem mem_resultTexts {o : Outcome} {r : ToolResult} {t : String}
    (hr : o.result = .ok r) (ht : ContentItem.text t ∈ r.content) :
    t ∈ resultTexts o := by
  unfold resultTexts
  rw [hr]
  exact List.mem_filterMap.mpr ⟨.text t, ht, rfl⟩

/-- A pattern `t1 ++ t2` sitting at the tail of a left-nested append. -/
theorem containsStr_tail2 (X t1 t2 : String) :
    containsStr ((X ++ t1) ++ t2) (t1 ++ t2) := by
  show (t1 ++ t2).data <:+: ((X ++ t1) ++ t2).data
  rw [String.data_append, String.data_append, String.data_append]
  exact ⟨X.data, [], by simp⟩

/-- The base summary line contains the total duration, unmodified. -/
theorem seqBaseSummary_duration (d : SequenceData) :
    containsStr (seqBaseSummary d) (toString d.total_duration_ms ++ "ms total.") := by
  unfold seqBaseSummary
  exact containsStr_tail2 _ _ _

/-- C4 (amended): on every successful backend response, `take_screenshot`,
`generate_pdf`, `create_og_image`, `run_sequence` and `inspect_page` relay the
response's size and duration metadata unmodified in their result text
(`run_sequence` per output and for its total duration).  `record_video` is
excluded: it reports size in KB and duration in seconds instead (see the
counterexample). -/
theorem C4_size_duration_relayed (env : Env) (key : String)
    (hkey : env.apiKey = some key) (hk : key ≠ "") (res : Response) (hok : res.ok = true) :
    (∀ p d, (truthy p.url || truthy p.html || truthy p.markdown) = true →
      ∃ t ∈ resultTexts (take_screenshot env p res d),
        containsStr t (toString d.size_bytes ++ " bytes") ∧
        containsStr t (toString d.duration_ms ++ "ms")) ∧
    (∀ p ctx diskOk d, (truthy p.url || truthy p.html) = true →
      ∃ t ∈ resultTexts (generate_pdf env p ctx diskOk res d),
        containsStr t (toString d.size_bytes ++ " bytes") ∧
        containsStr t (toString d.duration_ms ++ "ms")) ∧
    (∀ p d, ∃ t ∈ resultTexts (create_og_image env p res d),
        containsStr t (toString d.size_bytes ++ " bytes") ∧
        containsStr t (toString d.duration_ms ++ "ms")) ∧
    (∀ p d steps, p.steps = some steps → steps ≠ [] →
      (∀ o ∈ d.outputs, o.type = "screenshot" ∨ o.type = "pdf" →
        ∃ t ∈ resultTexts (run_sequence env p res d),
          containsStr t (toString o.size_bytes ++ " bytes")) ∧
      (∃ t ∈ resultTexts (run_sequence env p res d),
        containsStr t (toString d.total_duration_ms ++ "ms total."))) ∧
    (∀ p d, (truthy p.url || truthy p.html) = true →
      ∃ t ∈ resultTexts (inspect_page env p res d),
        containsStr t ("Duration: " ++ toString d.duration_ms ++ "ms")) := by
  refine ⟨?_, ?_, ?_, ?_, ?_⟩
  · intro p d hv
    have hca := callApi_ok env key hkey hk "/api/v1/screenshot" (some "POST") true res hok
    have hcond : (truthy p.url = false && truthy p.html = false &&
        truthy p.markdown = false) = false := by
      cases h1 : truthy p.url <;> cases h2 : truthy p.html <;>
        cases h3 : truthy p.markdown <;> simp_all
    have hr : (take_screenshot env p res d).result = .ok
        ⟨(match d.metadata with
          | some m =>
            [ContentItem.image d.data (imageMimeType (jsOr p.format "png")),
             ContentItem.text (screenshotSuccessText (jsOr p.format "png")
               d.size_bytes d.duration_ms)] ++
            [ContentItem.text ("Metadata:\n" ++ m)]
          | none =>
            [ContentItem.image d.data (imageMimeType (jsOr p.format "png")),
             ContentItem.text (screenshotSuccessText (jsOr p.format "png")
               d.size_bytes d.duration_ms)]), false⟩ := by
      unfold take_screenshot
      rw [hcond, hca]
      rfl
    refine ⟨screenshotSuccessText (jsOr p.format "png") d.size_bytes d.duration_ms,
      mem_resultTexts hr ?_, ?_, ?_⟩
    · cases d.metadata <;> simp
    · unfold screenshotSuccessText
      repeat
        first
          | exact containsStr_tail2 _ _ _
          | apply containsStr_mono_right
    · unfold screenshotSuccessText
      repeat
        first
          | exact containsStr_tail2 _ _ _
          | apply containsStr_mono_right
  · intro p ctx diskOk d hv
    have hca := callApi_ok env key hkey hk "/api/v1/pdf" (some "POST") true res hok
    have hcond : (truthy p.url = false && truthy p.html = false) = false := by
      cases h1 : truthy p.url <;> cases h2 : truthy p.html <;> simp_all
    have hr : (generate_pdf env p ctx diskOk res d).result = .ok
        ⟨[ContentItem.resource "pagebolt://pdf/output.pdf" "application/pdf" d.data,
          ContentItem.text (pdfSuccessText (trySave ctx diskOk d.data).1
            d.size_bytes d.duration_ms)], false⟩ := by
      unfold generate_pdf
      rw [hcond, hca]
      rfl
    refine ⟨pdfSuccessText (trySave ctx diskOk d.data).1 d.size_bytes d.duration_ms,
      mem_resultTexts hr (by simp), ?_, ?_⟩
    · unfold pdfSuccessText
      repeat
        first
          | exact containsStr_tail2 _ _ _
          | apply containsStr_mono_right
    · unfold pdfSuccessText
      repeat
        first
          | exact containsStr_tail2 _ _ _
          | apply containsStr_mono_right
  · intro p d
    have hca := callApi_ok env key hkey hk "/api/v1/og-image" (some "POST") true res hok
    have hr : (create_og_image env p res d).result = .ok
        ⟨[ContentItem.image d.data (imageMimeType (jsOr p.format "png")),
          ContentItem.text (ogSuccessText (jsOr p.format "png")
            d.size_bytes d.duration_ms)], false⟩ := by
      unfold create_og_image
      rw [hca]
    refine ⟨ogSuccessText (jsOr p.format "png") d.size_bytes d.duration_ms,
      mem_resultTexts hr (by simp), ?_, ?_⟩
    · unfold ogSuccessText
      repeat
        first
          | exact containsStr_tail2 _ _ _
          | apply containsStr_mono_right
    · unfold ogSuccessText
      repeat
        first
          | exact containsStr_tail2 _ _ _
          | apply containsStr_mono_right
  · intro p d steps hps hne
    have hca := callApi_ok env key hkey hk "/api/v1/sequence" (some "POST") true res hok
    have hlen : (steps.length = 0) = False := by simp [hne]
    have hr : (run_sequence env p res d).result = .ok
        ⟨(d.outputs.map seqOutputContent).flatten ++
          [ContentItem.text (seqSummaryText d)], false⟩ := by
      unfold run_sequence
      rw [hps, hca]
      simp [hlen]
    constructor
    · intro o ho htype
      rcases htype with hcase | hcase
      · refine ⟨"[" ++ o.name ++ "] Screenshot — " ++ o.format ++ ", " ++
          toString o.size_bytes ++ " bytes" ++ ", step " ++ toString o.step_index,
          mem_resultTexts hr ?_, ?_⟩
        · apply List.mem_append_left
          exact List.mem_flatten.mpr ⟨seqOutputContent o,
            List.mem_map_of_mem _ ho, by simp [seqOutputContent, hcase]⟩
        · repeat
            first
              | exact containsStr_tail2 _ _ _
              | apply containsStr_mono_right
      · refine ⟨"[" ++ o.name ++ "] PDF generated — " ++ o.format ++ ", " ++
          toString o.size_bytes ++ " bytes" ++ ", step " ++ toString o.step_index ++
          " (base64 data available in raw response)",
          mem_resultTexts hr ?_, ?_⟩
        · apply List.mem_append_left
          refine List.mem_flatten.mpr ⟨seqOutputContent o, List.mem_map_of_mem _ ho, ?_⟩
          have hns : (o.type = "screenshot") = False := by simp [hcase]
          simp [seqOutputContent, hns, hcase]
        · repeat
            first
              | exact containsStr_tail2 _ _ _
              | apply containsStr_mono_right
    · refine ⟨seqSummaryText d, mem_resultTexts hr (by simp), ?_⟩
      show containsStr (seqSummaryText d) _
      unfold seqSummaryText
      apply containsStr_mono_right
      apply containsStr_mono_right
      apply containsStr_mono_right
      apply containsStr_mono_right
      apply containsStr_mono_right
      apply containsStr_mono_right
      exact seqBaseSummary_duration d
  · intro p d hv
    have hca := callApi_ok env key hkey hk "/api/v1/inspect" (some "POST") true res hok
    have hcond : (truthy p.url = false && truthy p.html = false) = false := by
      cases h1 : truthy p.url <;> cases h2 : truthy p.html <;> simp_all
    have hr : (inspect_page env p res d).result = .ok
        ⟨[ContentItem.text (joinWith "\n" (inspectLines p d))], false⟩ := by
      unfold inspect_page
      rw [hcond, hca]
      rfl
    refine ⟨joinWith "\n" (inspectLines p d), mem_resultTexts hr (by simp), ?_⟩
    apply joinWith_contains
    simp [inspectLines]

/-- Witness for C4 at a concrete successful screenshot response. -/
theorem C4_size_duration_relayed_witness :
    ∃ t ∈ resultTexts (take_screenshot ⟨some "k", "https://pagebolt.dev"⟩
        ⟨some "https://x.test", none, none, none⟩ ⟨true, 200, "OK", none⟩
        ⟨"QUJD", 12345, 678, none⟩),
      containsStr t (toString (12345 : Nat) ++ " bytes") ∧
      containsStr t (toString (678 : Nat) ++ "ms") := by
  exact (C4_size_duration_relayed ⟨some "k", "https://pagebolt.dev"⟩ "k" rfl (by decide)
    ⟨true, 200, "OK", none⟩ rfl).1 ⟨some "https://x.test", none, none, none⟩
    ⟨"QUJD", 12345, 678, none⟩ (by decide)

/-- A concrete successful `record_video` run, for the C4 counterexample:
the backend reports `size_bytes = 2048` and `duration_ms = 3500`. -/
def c4VideoOutcome : Outcome :=
  record_video ⟨some "k", "https://pagebolt.dev"⟩ ⟨some [⟨"navigate"⟩], none, none⟩
    ⟨"/cwd/recording.mp4", "recording.mp4"⟩ true ⟨true, 200, "OK", none⟩
    ⟨"QUJD", "mp4", 2048, 3500, 12, 1, 1, 3, 97⟩

set_option maxRecDepth 10000 in
/-- Counterexample to C4 as stated: `record_video` does not relay
`size_bytes`/`duration_ms` unmodified — its text nowhere contains `2048` or
`3500`, reporting `2.0 KB` and `3.5s` instead. -/
theorem C4_record_video_counterexample :
    ¬ containsStr (joinWith "\n" (resultTexts c4VideoOutcome)) "2048" ∧
    ¬ containsStr (joinWith "\n" (resultTexts c4VideoOutcome)) "3500" ∧
    containsStr (joinWith "\n" (resultTexts c4VideoOutcome)) "2.0 KB" ∧
    containsStr (joinWith "\n" (resultTexts c4VideoOutcome)) "3.5s" := by
  decide
